import Mathlib

/-
Verification development for the agentco data-loading and query-surface
layer ("SourceDataStore"): a shallow embedding of
  src/agentco/data/data_converter.py   (load_json_to_dataframe, load_day_data,
                                        load_markdown_explanation,
                                        DataSourceAnalyzer.from_day_folder)
  src/agentco/tools.py                 (DataSourceToolset: __new__ cache,
                                        __init__, query_today_data,
                                        query_today_and_last_weekday_data,
                                        validate_data_quality, close)
  src/agentco/models/file_entry.py     (FileEntry validators)
with theorems about the documented behaviour of that layer.

Modelling conventions:
  - pandas DataFrames become lists of records; a DataFrame column access on a
    missing column is a Python KeyError, modelled by Except;
  - filesystem reads become lookups in an explicit environment value;
  - the embedded analytic engine (duckdb in the source) is modelled for the
    query fragment the toolset documentation exercises: `SELECT COUNT(*) FROM
    data` with an optional single `WHERE col = val` equality filter; any other
    text is a parse error, an unknown column a binder error, matching the
    engine's externally visible error categories;
  - Python floats appearing only via the quality-report ratio arithmetic are
    modelled by an exact type with explicit nan/inf values reproducing the
    numpy division rules used there.
-/

set_option autoImplicit false

namespace Agentco

/-- One file observation as it appears inside files.json /
files_last_weekday.json (everything except the enclosing source_id key). -/
structure FileData where
  filename : String
  rows : Int
  status : String
  is_duplicated : Bool
  file_size : Option Rat
  uploaded_at : String
  status_message : Option String
deriving DecidableEq, Repr

/-- A flattened record of the DataFrame produced by load_json_to_dataframe:
the source_id key of the enclosing JSON object spread together with the file
fields (`row = {"source_id": source_id, **file_data}`). -/
structure Row where
  source_id : String
  filename : String
  rows : Int
  status : String
  is_duplicated : Bool
  file_size : Option Rat
  uploaded_at : String
  status_message : Option String
deriving DecidableEq, Repr

def Row.ofFile (sid : String) (f : FileData) : Row :=
  { source_id := sid, filename := f.filename, rows := f.rows, status := f.status,
    is_duplicated := f.is_duplicated, file_size := f.file_size,
    uploaded_at := f.uploaded_at, status_message := f.status_message }

/-- A record of the combined frame built by DataSourceAnalyzer.from_day_folder:
a flattened row plus the partition column, which the source names literally
"from" (`daily_source_df["from"] = "today"`). -/
structure TaggedRow where
  row : Row
  fromTag : String
deriving DecidableEq, Repr

/-- Column names of the flattened frame returned by load_json_to_dataframe. -/
def row_columns : List String :=
  ["source_id", "filename", "rows", "status", "is_duplicated", "file_size",
   "uploaded_at", "status_message"]

/-- Column names of the combined frame built by from_day_folder: the flattened
columns plus the partition column, literally named "from". -/
def combined_columns : List String := row_columns ++ ["from"]

/-- Contents of one day folder: the parsed files.json and
files_last_weekday.json objects (source_id keys mapping to file lists). -/
structure DayData where
  files_json : List (String × List FileData)
  files_last_weekday_json : List (String × List FileData)
deriving DecidableEq, Repr

/-- The file system as the loader sees it: day folders by path, and markdown
documentation files by full path. -/
structure Env where
  day_folders : List (String × DayData)
  md_files : List (String × String)
deriving DecidableEq, Repr

/-- First-match association lookup (Python dict access / file lookup). -/
def assocFind {α β : Type} [DecidableEq α] : List (α × β) → α → Option β
  | [], _ => none
  | (k, v) :: rest, a => if k = a then some v else assocFind rest a

/-- Python exceptions raised by the loading layer. -/
inductive PyError where
  | fileNotFound (msg : String)
  | keyError (key : String)
deriving DecidableEq, Repr

/-- data_converter.load_json_to_dataframe: flatten the nested JSON object into
one record per file, each carrying its enclosing source_id.  No per-record
validation of any kind is performed here. -/
def load_json_to_dataframe (data : List (String × List FileData)) : List Row :=
  (data.map (fun p => p.2.map (Row.ofFile p.1))).flatten

/-- data_converter.load_day_data: read files.json and files_last_weekday.json
from the day folder; a missing folder surfaces as the FileNotFoundError of the
first open call. -/
def load_day_data (day_folder : String) (env : Env) :
    Except PyError (List Row × List Row) :=
  match assocFind env.day_folders day_folder with
  | none => .error (.fileNotFound (day_folder ++ "/files.json"))
  | some dd =>
      .ok (load_json_to_dataframe dd.files_json,
           load_json_to_dataframe dd.files_last_weekday_json)

/-- data_converter.load_markdown_explanation: read
datasource_folder/{source_id}_native.md, raising FileNotFoundError when the
file does not exist. -/
def load_markdown_explanation (source_id datasource_folder : String)
    (env : Env) : Except PyError String :=
  match assocFind env.md_files (datasource_folder ++ "/" ++ source_id ++ "_native.md") with
  | none => .error (.fileNotFound
      ("Markdown file not found: " ++ datasource_folder ++ "/" ++ source_id ++ "_native.md"))
  | some s => .ok s

/-- data_converter.DataSourceAnalyzer (source_id, combined data frame,
markdown explanation). -/
structure DataSourceAnalyzer where
  source_id : String
  data : List TaggedRow
  markdown_explanation : String
deriving DecidableEq, Repr

/-- data_converter.DataSourceAnalyzer.from_day_folder: load the two listings,
keep only records of the requested source, tag the partition column
(named "from") with "today" / "last_weekday", concatenate, and load the
markdown documentation. -/
def from_day_folder (source_id day_folder datasource_folder : String)
    (env : Env) : Except PyError DataSourceAnalyzer :=
  match load_day_data day_folder env with
  | .error e => .error e
  | .ok (daily_df, last_weekday_df) =>
      let daily_source_df := daily_df.filter (fun r => r.source_id == source_id)
      let last_weekday_source_df :=
        last_weekday_df.filter (fun r => r.source_id == source_id)
      let data :=
        daily_source_df.map (fun r => TaggedRow.mk r "today") ++
        last_weekday_source_df.map (fun r => TaggedRow.mk r "last_weekday")
      match load_markdown_explanation source_id datasource_folder env with
      | .error e => .error e
      | .ok md => .ok ⟨source_id, data, md⟩

/-! ### The embedded analytic engine (duckdb in the source)

The toolset registers a frame under the relation name `data` and forwards
caller-supplied SQL to the engine.  We model the engine for the query
fragment the toolset documentation exercises; queries outside the fragment
fail with a parser error and references to absent columns fail with a binder
error — the two externally visible failure categories of the engine. -/

/-- Failure of one engine call. -/
inductive QueryErr where
  | parseFailed (txt : String)
  | binderUnknownColumn (col : String)
  | connectionClosed
deriving DecidableEq, Repr

/-- The message text carried by the exception the engine raises. -/
def QueryErr.message : QueryErr → String
  | .parseFailed txt => "Parser Error: syntax error at or near \"" ++ txt ++ "\""
  | .binderUnknownColumn col =>
      "Binder Error: Referenced column \"" ++ col ++ "\" not found!"
  | .connectionClosed => "Connection Error: Connection already closed!"

/-- Parsed shape of a supported query. -/
inductive Sql where
  | countAll
  | countWhereEq (col : String) (val : String)
deriving DecidableEq, Repr

/-- Splitting a character stream on the space character (the word-splitting
String.splitOn " " performs, written with structural recursion). -/
def splitSpacesAux : List Char → List Char → List String
  | [], acc => [String.mk acc.reverse]
  | c :: rest, acc =>
      if c = ' ' then String.mk acc.reverse :: splitSpacesAux rest []
      else splitSpacesAux rest (c :: acc)

/-- Split a query string into space-separated words. -/
def tokenize (s : String) : List String := splitSpacesAux s.data []

/-- Parse the supported fragment; anything else is a parser error. -/
def parseSql (q : String) : Except QueryErr Sql :=
  match tokenize q with
  | ["SELECT", "COUNT(*)", "FROM", "data"] => .ok .countAll
  | ["SELECT", "COUNT(*)", "FROM", "data", "WHERE", col, "=", v] =>
      .ok (.countWhereEq col v)
  | _ => .error (.parseFailed q)

/-- The textual value of a named column in a combined-frame record (used only
to evaluate equality filters). -/
def TaggedRow.cell (r : TaggedRow) (col : String) : String :=
  if col = "source_id" then r.row.source_id
  else if col = "filename" then r.row.filename
  else if col = "rows" then toString r.row.rows
  else if col = "status" then r.row.status
  else if col = "is_duplicated" then toString r.row.is_duplicated
  else if col = "file_size" then
    (match r.row.file_size with | none => "NULL" | some q => toString q)
  else if col = "uploaded_at" then r.row.uploaded_at
  else if col = "status_message" then
    (match r.row.status_message with | none => "NULL" | some m => m)
  else r.fromTag

/-- Run a query against the registered relation, returning the result table
(rows of rendered cells) or the engine error. -/
def runSql (rel : List TaggedRow) (q : String) :
    Except QueryErr (List (List String)) :=
  match parseSql q with
  | .error e => .error e
  | .ok .countAll => .ok [[toString rel.length]]
  | .ok (.countWhereEq col v) =>
      if col ∈ combined_columns then
        .ok [[toString (rel.filter (fun r => r.cell col == v)).length]]
      else .error (.binderUnknownColumn col)

/-- Rendering of a result table (stands in for DataFrame.to_markdown). -/
def to_markdown (t : List (List String)) : String :=
  String.intercalate "\n" (t.map (fun cells => String.intercalate " | " cells))

/-! ### DataSourceToolset state -/

/-- A duckdb connection with its registered `data` relation, or a closed one
(queries on a closed connection raise a connection error). -/
inductive Conn where
  | opened (rel : List TaggedRow)
  | closed
deriving DecidableEq, Repr

/-- The attributes of a DataSourceToolset instance that the query operations
read (`self.data`, `self.today_data`, `self.markdown_explanation`,
`self.conn_today`, `self.conn_all`). -/
structure ToolsetState where
  source_id : String
  data : Option (List TaggedRow)
  today_data : Option (List TaggedRow)
  markdown_explanation : Option String
  conn_today : Conn
  conn_all : Conn
deriving DecidableEq, Repr

/-- tools.py line 130:
`self.today_data = self.data[self.data["from_period"] == "today"].copy()`.
Indexing a DataFrame by a column that does not exist raises KeyError; the
combined frame's columns are `combined_columns`, whose partition column is
named "from".  (Were a "from_period" column present, the line would keep the
rows whose partition value is "today".) -/
def today_subset (data : List TaggedRow) : Except PyError (List TaggedRow) :=
  if "from_period" ∈ combined_columns then
    .ok (data.filter (fun r => r.fromTag == "today"))
  else .error (.keyError "from_period")

/-- tools.py DataSourceToolset.__init__ (first initialization): build the
analyzer via from_day_folder, take the today subset, and register the two
in-memory connections.  Any exception propagates: the constructor call fails
and no initialized instance is produced. -/
def initToolset (source_id day_folder datasource_folder : String)
    (env : Env) : Except PyError ToolsetState :=
  match from_day_folder source_id day_folder datasource_folder env with
  | .error e => .error e
  | .ok analyzer =>
      match today_subset analyzer.data with
      | .error e => .error e
      | .ok td =>
          .ok { source_id := source_id,
                data := some analyzer.data,
                today_data := some td,
                markdown_explanation := some analyzer.markdown_explanation,
                conn_today := .opened td,
                conn_all := .opened analyzer.data }

/-- tools.py DataSourceToolset.close: closes both connections and clears
`self.data`, `self.markdown_explanation` (and the analyzer).  Note that the
source does NOT clear `self.today_data`. -/
def close (s : ToolsetState) : ToolsetState :=
  { s with conn_today := .closed, conn_all := .closed,
           data := none, markdown_explanation := none }

/-- The message returned by the query tools when `self.today_data` /
`self.data` is None. -/
def notLoadedMsg : String :=
  "Error: Data not loaded. Please initialize the toolset first."

/-- The string built by the `except` branch of the query tools. -/
def queryErrMsg (e : QueryErr) : String :=
  "Error executing query: " ++ e.message ++
  "\n\nPlease check your SQL syntax and column names."

/-- Successful-result rendering shared by both query tools: empty result
message, 100-row truncation, or the markdown table. -/
def renderResult (result : List (List String)) : String :=
  if result.length = 0 then
    "Query executed successfully but returned no results."
  else if result.length > 100 then
    "Query returned " ++ toString result.length ++
    " rows. Showing first 100:\n\n" ++ to_markdown (result.take 100) ++
    "\n\n... (" ++ toString (result.length - 100) ++ " more rows)"
  else to_markdown result

/-- tools.py DataSourceToolset.query_today_data. -/
def query_today_data (s : ToolsetState) (sql_query : String) : String :=
  match s.today_data with
  | none => notLoadedMsg
  | some _ =>
      match s.conn_today with
      | .closed => queryErrMsg .connectionClosed
      | .opened rel =>
          match runSql rel sql_query with
          | .error e => queryErrMsg e
          | .ok result => renderResult result

/-- tools.py DataSourceToolset.query_today_and_last_weekday_data. -/
def query_today_and_last_weekday_data (s : ToolsetState) (sql_query : String) :
    String :=
  match s.data with
  | none => notLoadedMsg
  | some _ =>
      match s.conn_all with
      | .closed => queryErrMsg .connectionClosed
      | .opened rel =>
          match runSql rel sql_query with
          | .error e => queryErrMsg e
          | .ok result => renderResult result

/-- The query methods assign no attribute of `self`: the instance state after
a call (successful or failed) is exactly the state before it. -/
def query_today_data_run (s : ToolsetState) (sql_query : String) :
    String × ToolsetState :=
  (query_today_data s sql_query, s)

/-- State-passing form of query_today_and_last_weekday_data (no attribute of
`self` is assigned by the method). -/
def query_combined_run (s : ToolsetState) (sql_query : String) :
    String × ToolsetState :=
  (query_today_and_last_weekday_data s sql_query, s)

/-! ### validate_data_quality -/

/-- SQL SUM over integer expressions: NULL (none) over an empty relation,
otherwise the total. -/
def sqlSumInt (xs : List Int) : Option Int :=
  match xs with
  | [] => none
  | _ => some (xs.foldl (fun a b => a + b) 0)

/-- SQL SUM over a nullable numeric column: NULL values are skipped; the sum
is NULL when no non-NULL value exists. -/
def sqlSumOpt (xs : List (Option Rat)) : Option Rat :=
  match xs.filterMap id with
  | [] => none
  | vs => some (vs.foldl (fun a b => a + b) 0)

/-- SQL MIN over a string column (NULL over an empty relation). -/
def sqlMinStr (xs : List String) : Option String :=
  match xs with
  | [] => none
  | x :: rest => some (rest.foldl (fun a b => if b < a then b else a) x)

/-- SQL MAX over a string column (NULL over an empty relation). -/
def sqlMaxStr (xs : List String) : Option String :=
  match xs with
  | [] => none
  | x :: rest => some (rest.foldl (fun a b => if a < b then b else a) x)

/-- The one-row result of the fixed aggregation query run by
validate_data_quality (NULL aggregates become NaN/NaT in the DataFrame,
modelled by none). -/
structure QualityChecks where
  total_files : Nat
  unique_sources : Nat
  empty_files : Option Int
  duplicates : Option Int
  failed_files : Option Int
  stopped_files : Option Int
  successful_files : Option Int
  earliest_upload : Option String
  latest_upload : Option String
  total_rows : Option Int
  total_size_bytes : Option Rat
deriving DecidableEq, Repr

/-- The fixed aggregation of validate_data_quality evaluated over the today
relation (note the status literals the source query uses: 'FAILED',
'STOPPED', 'SUCCESS'). -/
def qualityChecks (rel : List TaggedRow) : QualityChecks :=
  { total_files := rel.length,
    unique_sources := (rel.map (fun r => r.row.source_id)).dedup.length,
    empty_files := sqlSumInt (rel.map (fun r => if r.row.rows = 0 then 1 else 0)),
    duplicates := sqlSumInt (rel.map (fun r => if r.row.is_duplicated then 1 else 0)),
    failed_files := sqlSumInt (rel.map (fun r => if r.row.status = "FAILED" then 1 else 0)),
    stopped_files := sqlSumInt (rel.map (fun r => if r.row.status = "STOPPED" then 1 else 0)),
    successful_files := sqlSumInt (rel.map (fun r => if r.row.status = "SUCCESS" then 1 else 0)),
    earliest_upload := sqlMinStr (rel.map (fun r => r.row.uploaded_at)),
    latest_upload := sqlMaxStr (rel.map (fun r => r.row.uploaded_at)),
    total_rows := sqlSumInt (rel.map (fun r => r.row.rows)),
    total_size_bytes := sqlSumOpt (rel.map (fun r => r.row.file_size)) }

/-- A Python float value as produced by the ratio arithmetic: NaN (from a
NULL aggregate or 0/0), infinity (n/0 with n nonzero), or an exact value. -/
inductive PyFloat where
  | nan
  | inf
  | val (q : Rat)
deriving DecidableEq, Repr

/-- `num / den * 100` with numpy float semantics: a NULL (NaN) numerator
propagates NaN; a zero denominator yields NaN for a zero numerator and
infinity otherwise; no exception is ever raised. -/
def rate_percent (num : Option Int) (den : Nat) : PyFloat :=
  match num with
  | none => .nan
  | some n =>
      if den = 0 then (if n = 0 then .nan else .inf)
      else .val ((n : Rat) * 100 / (den : Rat))

/-- Rendering of a nonnegative rational with one decimal digit, rounding the
tenths to nearest (models the "{x:.1f}" format on the values reached here). -/
def fmtTenths (q : Rat) : String :=
  let t : Int := round (q * 10)
  toString (t / 10) ++ "." ++ toString (t % 10)

/-- Rendering of a Python float under the ".1f" format specifier. -/
def PyFloat.fmt1 : PyFloat → String
  | .nan => "nan"
  | .inf => "inf"
  | .val q => fmtTenths q

/-- Rendering of a nullable aggregate cell in the checks table. -/
def optCell {α : Type} (f : α → String) : Option α → String
  | none => "nan"
  | some a => f a

/-- Markdown rendering of the one-row checks table. -/
def checksMarkdown (c : QualityChecks) : String :=
  to_markdown [[toString c.total_files, toString c.unique_sources,
    optCell toString c.empty_files, optCell toString c.duplicates,
    optCell toString c.failed_files, optCell toString c.stopped_files,
    optCell toString c.successful_files, optCell id c.earliest_upload,
    optCell id c.latest_upload, optCell toString c.total_rows,
    optCell toString c.total_size_bytes]]

/-- The summary f-string of validate_data_quality: the checks table plus the
three derived ratios (each `checks[col] / checks[total_files] * 100`). -/
def renderSummary (c : QualityChecks) : String :=
  "\nData Quality Summary for Today:\n" ++ checksMarkdown c ++
  "\n\nQuick Insights:\n- Success Rate: " ++
  (rate_percent c.successful_files c.total_files).fmt1 ++
  "%\n- Duplicate Rate: " ++
  (rate_percent c.duplicates c.total_files).fmt1 ++
  "%\n- Empty File Rate: " ++
  (rate_percent c.empty_files c.total_files).fmt1 ++ "%\n"

/-- tools.py DataSourceToolset.validate_data_quality: the not-loaded guard,
then the aggregation and f-string inside try/except (a failing engine call
is caught and reported as a string). -/
def validate_data_quality (s : ToolsetState) : String :=
  match s.today_data with
  | none => "Error: Data not loaded."
  | some _ =>
      match s.conn_today with
      | .closed => "Error in data quality check: " ++ QueryErr.connectionClosed.message
      | .opened rel => renderSummary (qualityChecks rel)

/-! ### The __new__ singleton cache -/

/-- The constructor arguments of DataSourceToolset; the cache key of __new__
is exactly this tuple (pfx is the tool-name prefix argument). -/
structure Args where
  source_id : String
  day_folder : String
  datasource_folder : String
  pfx : String
deriving DecidableEq, Repr

/-- The class-level _instances dictionary: per key, either an initialized
instance (some state) or an instance whose __init__ raised before completion
(none) — __new__ stores the instance before __init__ runs. -/
def Cache : Type := List (Args × Option ToolsetState)

/-- Dictionary lookup in the instance cache. -/
def cacheFind : Cache → Args → Option (Option ToolsetState)
  | [], _ => none
  | (k, v) :: rest, a => if k = a then some v else cacheFind rest a

/-- Dictionary assignment (first-match lookup makes cons an overwrite). -/
def cacheInsert (c : Cache) (a : Args) (v : Option ToolsetState) : Cache :=
  (a, v) :: c

/-- __init__ for a given argument record. -/
def initArgs (a : Args) (env : Env) : Except PyError ToolsetState :=
  initToolset a.source_id a.day_folder a.datasource_folder env

/-- A DataSourceToolset(...) constructor call: __new__ returns the cached
instance when the key is present (and a completed __init__ is skipped via
the _initialized flag), otherwise creates and caches a new instance and runs
__init__ on it; an __init__ failure leaves the cached instance uninitialized
and the call raises. -/
def newToolset (env : Env) (a : Args) (c : Cache) :
    Except PyError ToolsetState × Cache :=
  match cacheFind c a with
  | some (some s) => (.ok s, c)
  | some none =>
      match initArgs a env with
      | .ok s => (.ok s, cacheInsert c a (some s))
      | .error e => (.error e, c)
  | none =>
      match initArgs a env with
      | .ok s => (.ok s, cacheInsert c a (some s))
      | .error e => (.error e, cacheInsert c a none)

/-- Query results of a constructor call's outcome: none when the constructor
raised (there is no instance to query). -/
def resultQueryToday (r : Except PyError ToolsetState) (q : String) :
    Option String :=
  match r with
  | .error _ => none
  | .ok s => some (query_today_data s q)

/-- Combined-view query results of a constructor call's outcome. -/
def resultQueryCombined (r : Except PyError ToolsetState) (q : String) :
    Option String :=
  match r with
  | .error _ => none
  | .ok s => some (query_today_and_last_weekday_data s q)

/-! ### FileEntry validation (models/file_entry.py) -/

/-- FileEntry.validate_status: membership in the validator's set. -/
def validate_status (v : String) : Except String String :=
  if v = "processed" ∨ v = "empty" ∨ v = "failed" ∨ v = "pending" then .ok v
  else .error ("Status must be one of \x7bprocessed, empty, failed, pending\x7d, got: " ++ v)

/-- FileEntry.validate_file_size, receiving the already-validated earlier
fields through `values`: `values.get("status")` is None when the status
validator failed, `values.get("rows", 0)` falls back to 0 when the rows
field failed its ge=0 constraint. -/
def validate_file_size (v : Option Rat) (status : Option String) (rows : Int) :
    Except String (Option Rat) :=
  if status = some "empty" ∧ v ≠ none then
    .error "Empty files should have file_size=None"
  else if status = some "processed" ∧ rows > 0 ∧ v = none then
    .error "Processed files with rows should have file_size"
  else
    match v with
    | some x => if x < 0 then .error "File size cannot be negative" else .ok v
    | none => .ok v

/-- All validation errors pydantic collects for one FileEntry: the rows
ge=0 field constraint, the status validator, and the file_size validator
(run with the values dict the earlier validators produced). -/
def fileEntryErrors (fd : FileData) : List String :=
  let rowsErr := if fd.rows < 0 then ["rows must be greater than or equal to 0"] else []
  let statusErr :=
    match validate_status fd.status with
    | .error e => [e]
    | .ok _ => []
  let statusVal : Option String :=
    match validate_status fd.status with
    | .error _ => none
    | .ok s => some s
  let rowsVal : Int := if fd.rows < 0 then 0 else fd.rows
  let sizeErr :=
    match validate_file_size fd.file_size statusVal rowsVal with
    | .error e => [e]
    | .ok _ => []
  rowsErr ++ statusErr ++ sizeErr

/-- Pydantic model construction: the record is accepted exactly when no
validator reports an error. -/
def fileEntryValidate (fd : FileData) : Except (List String) FileData :=
  match fileEntryErrors fd with
  | [] => .ok fd
  | errs => .error errs

/-! ### Sample data shared by concrete instantiations -/

/-- A well-formed processed file observation. -/
def fdA : FileData :=
  ⟨"a.csv", 100, "processed", false, some 10, "2025-09-08T10:00:00", none⟩

/-- A well-formed empty file observation (no size, as required). -/
def fdB : FileData :=
  ⟨"b.csv", 0, "empty", false, none, "2025-09-08T11:00:00", none⟩

/-- An inconsistent observation: status "empty" together with a size. -/
def fdBad : FileData :=
  ⟨"bad.csv", 0, "empty", false, some 5, "2025-09-08T12:00:00", none⟩

/-- A day folder listing records for two sources; the last-weekday listing
holds one record of source s1. -/
def ddW : DayData := ⟨[("s1", [fdA, fdBad]), ("s2", [fdB])], [("s1", [fdA])]⟩

/-- File system with the sample day folder and documentation for s1. -/
def envW : Env := ⟨[("day1", ddW)], [("cv/s1_native.md", "s1 docs")]⟩

/-- The analyzer from_day_folder builds for s1 over envW. -/
def aW : DataSourceAnalyzer :=
  ⟨"s1",
   [⟨Row.ofFile "s1" fdA, "today"⟩, ⟨Row.ofFile "s1" fdBad, "today"⟩,
    ⟨Row.ofFile "s1" fdA, "last_weekday"⟩],
   "s1 docs"⟩

/-- Same file system but with no markdown documentation at all. -/
def envNoMd : Env := ⟨[("day1", ddW)], []⟩

/-! ### Loader lemmas -/

/-- The records of the today listing that belong to the given source — the
today input of a (today, last_weekday) pair as the store sees it. -/
def today_input_rows (env : Env) (day_folder source_id : String) : List Row :=
  match assocFind env.day_folders day_folder with
  | none => []
  | some dd =>
      (load_json_to_dataframe dd.files_json).filter
        (fun r => r.source_id == source_id)

/-- The records of the last-weekday listing that belong to the given source. -/
def lw_input_rows (env : Env) (day_folder source_id : String) : List Row :=
  match assocFind env.day_folders day_folder with
  | none => []
  | some dd =>
      (load_json_to_dataframe dd.files_last_weekday_json).filter
        (fun r => r.source_id == source_id)

lemma from_day_folder_ok {sid df dsf : String} {env : Env}
    {a : DataSourceAnalyzer}
    (h : from_day_folder sid df dsf env = .ok a) :
    ∃ dd md, assocFind env.day_folders df = some dd ∧
      assocFind env.md_files (dsf ++ "/" ++ sid ++ "_native.md") = some md ∧
      a = ⟨sid,
        ((load_json_to_dataframe dd.files_json).filter
            (fun r => r.source_id == sid)).map (fun r => ⟨r, "today"⟩) ++
        ((load_json_to_dataframe dd.files_last_weekday_json).filter
            (fun r => r.source_id == sid)).map (fun r => ⟨r, "last_weekday"⟩),
        md⟩ := by
  cases hd : assocFind env.day_folders df with
  | none =>
      simp only [from_day_folder, load_day_data, hd] at h
      exact Except.noConfusion h
  | some dd =>
      cases hm : assocFind env.md_files (dsf ++ "/" ++ sid ++ "_native.md") with
      | none =>
          simp only [from_day_folder, load_day_data, load_markdown_explanation,
            hd, hm] at h
          exact Except.noConfusion h
      | some md =>
          simp only [from_day_folder, load_day_data, load_markdown_explanation,
            hd, hm, Except.ok.injEq] at h
          exact ⟨dd, md, rfl, rfl, h.symm⟩

lemma initToolset_of_ok {sid df dsf : String} {env : Env}
    {a : DataSourceAnalyzer}
    (h : from_day_folder sid df dsf env = .ok a) :
    initToolset sid df dsf env = .error (.keyError "from_period") := by
  have hnot : ¬ ("from_period" ∈ combined_columns) := by decide
  simp only [initToolset, h, today_subset, if_neg hnot]

lemma filter_tag_self (l : List Row) (tag : String) :
    (l.map (fun r => TaggedRow.mk r tag)).filter (fun r => r.fromTag == tag) =
      l.map (fun r => TaggedRow.mk r tag) := by
  induction l with
  | nil => rfl
  | cons x xs ih => simp [ih]

lemma filter_tag_other (l : List Row) {tag t : String} (hne : tag ≠ t) :
    (l.map (fun r => TaggedRow.mk r tag)).filter (fun r => r.fromTag == t) =
      [] := by
  induction l with
  | nil => rfl
  | cons x xs ih => simp [ih, hne]

/-! ### Claim theorems -/

/-- C1: for every valid (today, last_weekday) input pair the today-only view
would contain exactly the today-partition records — their number is the
number of today records of the source — but the toolset constructor never
reaches the query surface: the today-subset line indexes the absent column
"from_period" (the partition column is named "from"), so initialization
raises KeyError for every input on which loading succeeded. -/
theorem c1_today_count_unreachable (sid df dsf : String) (env : Env)
    (a : DataSourceAnalyzer) (h : from_day_folder sid df dsf env = .ok a) :
    initToolset sid df dsf env = .error (.keyError "from_period") ∧
    (a.data.filter (fun r => r.fromTag == "today")).length =
      (today_input_rows env df sid).length := by
  obtain ⟨dd, md, hd, hm, ha⟩ := from_day_folder_ok h
  refine ⟨initToolset_of_ok h, ?_⟩
  subst ha
  simp only [today_input_rows, hd]
  rw [List.filter_append, filter_tag_self,
    filter_tag_other _ (show "last_weekday" ≠ "today" by decide)]
  simp

/-- C1 witness: the concrete sample environment. -/
theorem c1_today_count_unreachable_witness :
    initToolset "s1" "day1" "cv" envW = .error (.keyError "from_period") ∧
    (aW.data.filter (fun r => r.fromTag == "today")).length =
      (today_input_rows envW "day1" "s1").length :=
  c1_today_count_unreachable "s1" "day1" "cv" envW aW rfl

/-- C2: the combined relation built at load time does hold
len(today) + len(last_weekday) rows, each tagged "today" or "last_weekday" —
but the tag column is literally named "from", not the "from_period" column
the query tool documents, and construction of the toolset aborts with
KeyError "from_period" before the combined connection can ever serve a
query. -/
theorem c2_combined_partition_surface (sid df dsf : String) (env : Env)
    (a : DataSourceAnalyzer) (h : from_day_folder sid df dsf env = .ok a) :
    a.data.length =
      (today_input_rows env df sid).length + (lw_input_rows env df sid).length ∧
    a.data.all
      (fun r => r.fromTag == "today" || r.fromTag == "last_weekday") = true ∧
    "from_period" ∉ combined_columns ∧
    initToolset sid df dsf env = .error (.keyError "from_period") := by
  obtain ⟨dd, md, hd, hm, ha⟩ := from_day_folder_ok h
  refine ⟨?_, ?_, by decide, initToolset_of_ok h⟩
  · subst ha
    simp [today_input_rows, lw_input_rows, hd]
  · subst ha
    rw [List.all_eq_true]
    intro r hr
    rcases List.mem_append.mp hr with hr | hr <;>
      rcases List.mem_map.mp hr with ⟨x, hx, rfl⟩ <;> simp

/-- C2 witness: the concrete sample environment. -/
theorem c2_combined_partition_surface_witness :
    aW.data.length =
      (today_input_rows envW "day1" "s1").length +
        (lw_input_rows envW "day1" "s1").length ∧
    aW.data.all
      (fun r => r.fromTag == "today" || r.fromTag == "last_weekday") = true ∧
    "from_period" ∉ combined_columns ∧
    initToolset "s1" "day1" "cv" envW = .error (.keyError "from_period") :=
  c2_combined_partition_surface "s1" "day1" "cv" envW aW rfl

/-- C7: if the documentation file of the source cannot be found at
construction time, construction fails with the FileNotFoundError of the
markdown loader — an error result, so no store value is produced at all. -/
theorem c7_missing_documentation_aborts (sid df dsf : String) (env : Env)
    (dd : DayData) (hd : assocFind env.day_folders df = some dd)
    (hm : assocFind env.md_files (dsf ++ "/" ++ sid ++ "_native.md") = none) :
    initToolset sid df dsf env =
      .error (.fileNotFound
        ("Markdown file not found: " ++ dsf ++ "/" ++ sid ++ "_native.md")) := by
  simp only [initToolset, from_day_folder, load_day_data,
    load_markdown_explanation, hd, hm]

/-- C7 witness: the sample environment with the documentation removed. -/
theorem c7_missing_documentation_aborts_witness :
    initToolset "s1" "day1" "cv" envNoMd =
      .error (.fileNotFound ("Markdown file not found: " ++ "cv" ++ "/" ++ "s1" ++ "_native.md")) :=
  c7_missing_documentation_aborts "s1" "day1" "cv" envNoMd ddW rfl rfl

/-- C10: the relation the analyzer loads is filtered to the store's own
source at load time: every record of either partition carries the requested
source_id, no matter how many other sources the listing files mention. -/
theorem c10_relation_filtered_to_own_source (sid df dsf : String) (env : Env)
    (a : DataSourceAnalyzer) (h : from_day_folder sid df dsf env = .ok a) :
    a.data.all (fun r => r.row.source_id == sid) = true := by
  obtain ⟨dd, md, hd, hm, ha⟩ := from_day_folder_ok h
  subst ha
  rw [List.all_eq_true]
  intro r hr
  rcases List.mem_append.mp hr with hr | hr <;>
    rcases List.mem_map.mp hr with ⟨x, hx, rfl⟩ <;>
    exact (List.mem_filter.mp hx).2

/-- C10 witness: the sample environment, whose listings also contain records
of source s2. -/
theorem c10_relation_filtered_to_own_source_witness :
    aW.data.all (fun r => r.row.source_id == "s1") = true :=
  c10_relation_filtered_to_own_source "s1" "day1" "cv" envW aW rfl

/-- C3: on a loaded store, a query the engine rejects (syntax error, unknown
column) makes each query tool return the structured "Error executing query"
message carrying the engine's description, not an unhandled exception; the
methods assign nothing, so the store state after the failed call is the
state before it and any later query answers exactly as it would have without
the failure. -/
theorem c3_query_errors_recoverable (s : ToolsetState)
    (td relT dd relA : List TaggedRow) (q : String) (e1 e2 : QueryErr)
    (h1 : s.today_data = some td) (h2 : s.conn_today = .opened relT)
    (h3 : s.data = some dd) (h4 : s.conn_all = .opened relA)
    (h5 : runSql relT q = .error e1) (h6 : runSql relA q = .error e2) :
    query_today_data s q = queryErrMsg e1 ∧
    query_today_and_last_weekday_data s q = queryErrMsg e2 ∧
    (query_today_data_run s q).2 = s ∧
    (query_combined_run s q).2 = s ∧
    (∀ q2, query_today_data (query_today_data_run s q).2 q2 =
      query_today_data s q2) ∧
    (∀ q2, query_today_and_last_weekday_data (query_combined_run s q).2 q2 =
      query_today_and_last_weekday_data s q2) := by
  refine ⟨?_, ?_, rfl, rfl, fun q2 => rfl, fun q2 => rfl⟩
  · simp only [query_today_data, h1, h2, h5]
  · simp only [query_today_and_last_weekday_data, h3, h4, h6]

/-- C3 witness: a malformed query on a concrete loaded store. -/
theorem c3_query_errors_recoverable_witness :
    query_today_data ⟨"s1", some [], some [], some "d", .opened [], .opened []⟩
        "BOGUS QUERY" = queryErrMsg (.parseFailed "BOGUS QUERY") ∧
    query_today_and_last_weekday_data
        ⟨"s1", some [], some [], some "d", .opened [], .opened []⟩
        "BOGUS QUERY" = queryErrMsg (.parseFailed "BOGUS QUERY") ∧
    (query_today_data_run
        ⟨"s1", some [], some [], some "d", .opened [], .opened []⟩
        "BOGUS QUERY").2 =
      ⟨"s1", some [], some [], some "d", .opened [], .opened []⟩ ∧
    (query_combined_run
        ⟨"s1", some [], some [], some "d", .opened [], .opened []⟩
        "BOGUS QUERY").2 =
      ⟨"s1", some [], some [], some "d", .opened [], .opened []⟩ ∧
    (∀ q2, query_today_data (query_today_data_run
        ⟨"s1", some [], some [], some "d", .opened [], .opened []⟩
        "BOGUS QUERY").2 q2 =
      query_today_data
        ⟨"s1", some [], some [], some "d", .opened [], .opened []⟩ q2) ∧
    (∀ q2, query_today_and_last_weekday_data (query_combined_run
        ⟨"s1", some [], some [], some "d", .opened [], .opened []⟩
        "BOGUS QUERY").2 q2 =
      query_today_and_last_weekday_data
        ⟨"s1", some [], some [], some "d", .opened [], .opened []⟩ q2) :=
  c3_query_errors_recoverable _ [] [] [] [] "BOGUS QUERY"
    (.parseFailed "BOGUS QUERY") (.parseFailed "BOGUS QUERY")
    rfl rfl rfl rfl rfl rfl

/-- C4: on a store whose today partition is empty, validate_data_quality
returns the rendered summary (not either error branch); the checks report
total_files = 0 and each of the three derived ratios evaluates to the
defined float value NaN (rendered "nan"), because the NULL aggregate
numerators propagate NaN through the numpy division — no division error is
raised or surfaced. -/
theorem c4_quality_digest_empty_today (sid : String)
    (d : Option (List TaggedRow)) (md : Option String) (ca : Conn) :
    validate_data_quality ⟨sid, d, some [], md, .opened [], ca⟩ =
      renderSummary (qualityChecks []) ∧
    (qualityChecks []).total_files = 0 ∧
    rate_percent (qualityChecks []).successful_files
      (qualityChecks []).total_files = .nan ∧
    rate_percent (qualityChecks []).duplicates
      (qualityChecks []).total_files = .nan ∧
    rate_percent (qualityChecks []).empty_files
      (qualityChecks []).total_files = .nan ∧
    PyFloat.fmt1 .nan = "nan" :=
  ⟨rfl, rfl, rfl, rfl, rfl, rfl⟩

/-- C5: after close() — which closes both connections and clears self.data
and self.markdown_explanation but not self.today_data — query_today_data
does not return the dedicated not-loaded indication: it falls through to the
closed connection and yields the QueryError-shaped "Error executing query"
message, while query_today_and_last_weekday_data (whose guard attribute was
cleared) does return the not-loaded indication. -/
theorem c5_close_leaves_today_data :
    query_today_data
        (close ⟨"s1", some [⟨Row.ofFile "s1" fdA, "today"⟩],
          some [⟨Row.ofFile "s1" fdA, "today"⟩], some "s1 docs",
          .opened [⟨Row.ofFile "s1" fdA, "today"⟩],
          .opened [⟨Row.ofFile "s1" fdA, "today"⟩]⟩)
        "SELECT COUNT(*) FROM data" = queryErrMsg .connectionClosed ∧
    query_today_data
        (close ⟨"s1", some [⟨Row.ofFile "s1" fdA, "today"⟩],
          some [⟨Row.ofFile "s1" fdA, "today"⟩], some "s1 docs",
          .opened [⟨Row.ofFile "s1" fdA, "today"⟩],
          .opened [⟨Row.ofFile "s1" fdA, "today"⟩]⟩)
        "SELECT COUNT(*) FROM data" ≠ notLoadedMsg ∧
    (close ⟨"s1", some [⟨Row.ofFile "s1" fdA, "today"⟩],
        some [⟨Row.ofFile "s1" fdA, "today"⟩], some "s1 docs",
        .opened [⟨Row.ofFile "s1" fdA, "today"⟩],
        .opened [⟨Row.ofFile "s1" fdA, "today"⟩]⟩).today_data =
      some [⟨Row.ofFile "s1" fdA, "today"⟩] ∧
    query_today_and_last_weekday_data
        (close ⟨"s1", some [⟨Row.ofFile "s1" fdA, "today"⟩],
          some [⟨Row.ofFile "s1" fdA, "today"⟩], some "s1 docs",
          .opened [⟨Row.ofFile "s1" fdA, "today"⟩],
          .opened [⟨Row.ofFile "s1" fdA, "today"⟩]⟩)
        "SELECT COUNT(*) FROM data" = notLoadedMsg := by
  refine ⟨rfl, ?_, rfl, rfl⟩
  decide

/-- C6 counterexample: a record with status "empty" and a non-null file_size
is loaded into the store's relation unflagged — from_day_folder succeeds and
the record's row is a member of the combined relation — even though the
FileEntry validator would reject exactly this record.  The load path never
invokes that validator. -/
theorem c6_inconsistent_record_loaded_counterexample :
    fileEntryErrors fdBad = ["Empty files should have file_size=None"] ∧
    from_day_folder "s1" "day1" "cv" envW = .ok aW ∧
    TaggedRow.mk (Row.ofFile "s1" fdBad) "today" ∈ aW.data := by
  refine ⟨rfl, rfl, ?_⟩
  simp [aW]

/-- C6 amended: the FileEntry validator does reject every record with status
"empty" and a non-null file_size, but the store's load path
(load_json_to_dataframe / from_day_folder) performs no per-record
validation: any such record present in the listing for the requested source
is accepted into the relation. -/
theorem c6_validation_exists_but_unwired (fd : FileData)
    (h1 : fd.status = "empty") (h2 : fd.file_size ≠ none) :
    fileEntryErrors fd ≠ [] ∧
    ∀ (env : Env) (sid df dsf : String) (dd : DayData)
      (files : List FileData) (a : DataSourceAnalyzer),
      assocFind env.day_folders df = some dd →
      (sid, files) ∈ dd.files_json →
      fd ∈ files →
      from_day_folder sid df dsf env = .ok a →
      TaggedRow.mk (Row.ofFile sid fd) "today" ∈ a.data := by
  constructor
  · have hs : validate_status fd.status = .ok "empty" := by rw [h1]; rfl
    have hf : validate_file_size fd.file_size (some "empty")
        (if fd.rows < 0 then 0 else fd.rows) =
        .error "Empty files should have file_size=None" := by
      unfold validate_file_size
      rw [if_pos ⟨rfl, h2⟩]
    simp only [fileEntryErrors, hs, hf]
    simp
  · intro env sid df dsf dd files a hd hmem hfd hok
    obtain ⟨dd2, md, hd2, hm, ha⟩ := from_day_folder_ok hok
    have hdd : dd2 = dd := Option.some.inj (hd2.symm.trans hd)
    subst hdd
    subst ha
    apply List.mem_append_left
    refine List.mem_map.mpr ⟨Row.ofFile sid fd, ?_, rfl⟩
    refine List.mem_filter.mpr ⟨?_, by simp [Row.ofFile]⟩
    unfold load_json_to_dataframe
    refine List.mem_flatten.mpr
      ⟨files.map (Row.ofFile sid), ?_, List.mem_map_of_mem _ hfd⟩
    exact List.mem_map.mpr ⟨(sid, files), hmem, rfl⟩

/-- C6 witness: the concrete inconsistent record in the sample listing. -/
theorem c6_validation_exists_but_unwired_witness :
    fileEntryErrors fdBad ≠ [] ∧
    TaggedRow.mk (Row.ofFile "s1" fdBad) "today" ∈ aW.data := by
  have h := c6_validation_exists_but_unwired fdBad rfl (by simp [fdBad])
  exact ⟨h.1, h.2 envW "s1" "day1" "cv" ddW [fdA, fdBad] aW rfl
    (by simp [ddW]) (by simp) rfl⟩

lemma cacheFind_insert (c : Cache) (a : Args) (v : Option ToolsetState) :
    cacheFind (cacheInsert c a v) a = some v := by
  simp [cacheInsert, cacheFind]

/-- C8: two toolset constructions with identical arguments against the same
input files — the second either reusing the cached instance of the first or
re-running load — produce the same outcome, and whenever they produce
stores, every identical query string submitted to both yields identical
results. -/
theorem c8_identical_construction_identical_results (env : Env) (a : Args)
    (c : Cache) :
    (newToolset env a c).1 = (newToolset env a (newToolset env a c).2).1 ∧
    ∀ q,
      resultQueryToday (newToolset env a c).1 q =
        resultQueryToday (newToolset env a (newToolset env a c).2).1 q ∧
      resultQueryCombined (newToolset env a c).1 q =
        resultQueryCombined (newToolset env a (newToolset env a c).2).1 q := by
  have key : (newToolset env a c).1 =
      (newToolset env a (newToolset env a c).2).1 := by
    cases hf : cacheFind c a with
    | none =>
        cases hi : initArgs a env with
        | ok s => simp [newToolset, hf, hi, cacheFind_insert]
        | error e => simp [newToolset, hf, hi, cacheFind_insert]
    | some ov =>
        cases ov with
        | none =>
            cases hi : initArgs a env with
            | ok s => simp [newToolset, hf, hi, cacheFind_insert]
            | error e => simp [newToolset, hf, hi]
        | some s => simp [newToolset, hf]
  exact ⟨key, fun q => by rw [key]; exact ⟨rfl, rfl⟩⟩

/-- The status vocabulary the specification claims for record validation. -/
def spec_status_values : List String :=
  ["processed", "empty", "failure", "stopped", "deleted"]

/-- C9 counterexample: "failure" lies inside the specified vocabulary yet
the validator rejects it, and "pending" lies outside it yet the validator
accepts it — the validator's set is actually \x7bprocessed, empty, failed,
pending\x7d. -/
theorem c9_status_vocabulary_counterexample :
    "failure" ∈ spec_status_values ∧
    validate_status "failure" =
      .error "Status must be one of \x7bprocessed, empty, failed, pending\x7d, got: failure" ∧
    "pending" ∉ spec_status_values ∧
    validate_status "pending" = .ok "pending" :=
  ⟨by decide, rfl, by decide, rfl⟩

/-- C9 amended: the validator accepts a status exactly when it is one of
processed, empty, failed, pending, and rejects any other status with an
error. -/
theorem c9_status_vocabulary_amended (v : String) :
    validate_status v = .ok v ↔
      (v = "processed" ∨ v = "empty" ∨ v = "failed" ∨ v = "pending") := by
  unfold validate_status
  by_cases h : v = "processed" ∨ v = "empty" ∨ v = "failed" ∨ v = "pending"
  · simp [h]
  · simp [h]

end Agentco
